import Mathlib

/-!
Verification development for the `py-gitbolt` repository
(`src/vt/vcs/git/gitlib`): the option model, merge algebra, main-command
argument formatter, validation layer and the subprocess facade objects.

Python values of type `T | None | Unset` are embedded as `OptVal`,
dictionaries over the fixed `GitOpts` key universe as total functions from
the key enumeration to `OptVal` (mirroring `dict.get`, which yields `None`
both for a missing key and for a key explicitly set to `None`), and
exceptions as `Except` values.
-/

namespace Gitbolt

/-- The two error discriminants of the repository's error taxonomy
(`ERR_DATA_FORMAT_ERR` and `ERR_INVALID_USAGE` from
`vt.utils.errors.error_specs`): two distinct machine-checkable exit codes. -/
inductive ErrCode where
  | dataFormat
  | invalidUsage
deriving DecidableEq

/-- `GitExitingException(errmsg, exit_code=...)` from
`src/vt/vcs/git/gitlib/exceptions.py`: carries a message and an exit code. -/
structure GitExitingException where
  message : String
  exit_code : ErrCode
deriving DecidableEq

/-- A value of a key inside the `c` config-variable map:
`dict[str, str | bool | None | Unset]` (`models.py`, field `c`). -/
inductive CVal where
  | str (s : String)
  | boolean (b : Bool)
  | none
  | unset
deriving DecidableEq

/-- Three-state wrapper mirroring `T | None | Unset` in the Python source:
`none` is Python `None` (absent / no opinion), `unset` is the `UNSET`
sentinel (explicitly cleared), `val` is any other (explicit) value. -/
inductive OptVal (α : Type) where
  | none
  | unset
  | val (a : α)
deriving DecidableEq

/-- The union of the value shapes occurring in `GitOpts` (`models.py`):
strings (also used for `Path`, via `str(path)`), booleans, string
sequences (`Sequence[Path]` / `Sequence[str]`), the config-variable map
(`dict[str, str | bool | None | Unset]`, with its Python insertion order
kept as a list) and plain string-to-string maps (`dict[str, str]`). -/
inductive GVal where
  | str (s : String)
  | boolean (b : Bool)
  | strs (ss : List String)
  | cmap (m : List (String × CVal))
  | smap (m : List (String × String))
deriving DecidableEq

/-- The declared key universe of the `GitOpts` TypedDict (`models.py`),
in declaration order.  `namespace` is a Lean keyword, hence `namespace_`. -/
inductive GitOptKey where
  | C
  | c
  | config_env
  | exec_path
  | paginate
  | no_pager
  | git_dir
  | work_tree
  | namespace_
  | bare
  | no_replace_objects
  | no_lazy_fetch
  | no_optional_locks
  | no_advice
  | literal_pathspecs
  | glob_pathspecs
  | noglob_pathspecs
  | icase_pathspecs
  | list_cmds
  | attr_source
deriving DecidableEq, Fintype

/-- A `GitOpts` dictionary, seen through `dict.get` over the declared key
universe: a total map from keys to three-state values.  A key that is
missing from the Python dict and a key stored with value `None` are both
`OptVal.none` here, exactly as `primary.get(k)` treats them. -/
def GitOpts := GitOptKey → OptVal GVal

/-- The empty dict `{}`: every declared key reads as `None`. -/
def emptyGitOpts : GitOpts := fun _ => OptVal.none

/-- Store one key's value (building a kwargs dict key by key). -/
def GitOpts.set (o : GitOpts) (k₀ : GitOptKey) (v : OptVal GVal) : GitOpts :=
  fun k => if k = k₀ then v else o k

/-- `merge_git_opts` from `src/vt/vcs/git/gitlib/utils.py` lines 96-102:
for every declared key `k`, take `primary.get(k)` and fall back to
`fallback.get(k)` exactly when the former is `None`. -/
def merge_git_opts (primary fallback : GitOpts) : GitOpts :=
  fun k =>
    match primary k with
    | OptVal.none => fallback k
    | v => v

/-! ## Argument formatter: `GitCommand` per-option methods
(`src/vt/vcs/git/gitlib/git_subprocess/base.py`).

Each method reads its key with `self._main_cmd_opts.get(...)` and emits
tokens when `not_none_not_unset(val)` holds, i.e. when the stored value is
neither `None` nor the `UNSET` sentinel — the boolean content of a flag
value is *not* inspected.  For value-carrying options the catch-all `[]`
branch of the Lean `match` is reachable only for `None`/`UNSET`: the
`GitOpts` TypedDict (`models.py`) restricts every other value to the
matched shape. -/

/-- `GitCommand._main_cmd_cap_c_args`: `["-C", str(path)]` per element. -/
def _main_cmd_cap_c_args (o : GitOpts) : List String :=
  match o GitOptKey.C with
  | OptVal.val (GVal.strs ps) => ps.flatMap (fun p => ["-C", p])
  | _ => []

/-- The per-entry body of the loop in `GitCommand._main_cmd_small_c_args`:
`UNSET` entries are skipped, `True` and `None` render as a bare key,
`False` as `key=`, any other value as `key=value`. -/
def cEntryArgs : String × CVal → List String
  | (_, CVal.unset) => []
  | (k, CVal.boolean true) => ["-c", k]
  | (k, CVal.none) => ["-c", k]
  | (k, CVal.boolean false) => ["-c", k ++ "="]
  | (k, CVal.str s) => ["-c", k ++ "=" ++ s]

/-- The accumulation loop of `GitCommand._main_cmd_small_c_args`
(`for k, v in val.items(): ... args += [...]`), in map iteration order. -/
def cArgsLoop : List (String × CVal) → List String
  | [] => []
  | kv :: rest => cEntryArgs kv ++ cArgsLoop rest

/-- `GitCommand._main_cmd_small_c_args` (base.py lines 78-92). -/
def _main_cmd_small_c_args (o : GitOpts) : List String :=
  match o GitOptKey.c with
  | OptVal.val (GVal.cmap m) => cArgsLoop m
  | _ => []

/-- `GitCommand._main_cmd_config_env_args`: `["--config-env", "k=v"]` per entry. -/
def _main_cmd_config_env_args (o : GitOpts) : List String :=
  match o GitOptKey.config_env with
  | OptVal.val (GVal.smap m) => m.flatMap (fun kv => ["--config-env", kv.1 ++ "=" ++ kv.2])
  | _ => []

/-- `GitCommand._main_cmd_exec_path_args`: `["--exec-path", str(val)]`. -/
def _main_cmd_exec_path_args (o : GitOpts) : List String :=
  match o GitOptKey.exec_path with
  | OptVal.val (GVal.str p) => ["--exec-path", p]
  | _ => []

/-- `GitCommand._main_cmd_paginate_args` (base.py lines 106-110): emits
`--paginate` for every value that is neither `None` nor `UNSET`. -/
def _main_cmd_paginate_args (o : GitOpts) : List String :=
  match o GitOptKey.paginate with
  | OptVal.none => []
  | OptVal.unset => []
  | OptVal.val _ => ["--paginate"]

/-- `GitCommand._main_cmd_no_pager_args`. -/
def _main_cmd_no_pager_args (o : GitOpts) : List String :=
  match o GitOptKey.no_pager with
  | OptVal.none => []
  | OptVal.unset => []
  | OptVal.val _ => ["--no-pager"]

/-- `GitCommand._main_cmd_git_dir_args`: `["--git-dir", str(val)]`. -/
def _main_cmd_git_dir_args (o : GitOpts) : List String :=
  match o GitOptKey.git_dir with
  | OptVal.val (GVal.str p) => ["--git-dir", p]
  | _ => []

/-- `GitCommand._main_cmd_work_tree_args`: `["--work-tree", str(val)]`. -/
def _main_cmd_work_tree_args (o : GitOpts) : List String :=
  match o GitOptKey.work_tree with
  | OptVal.val (GVal.str p) => ["--work-tree", p]
  | _ => []

/-- `GitCommand._main_cmd_namespace_args`: `["--namespace", val]`. -/
def _main_cmd_namespace_args (o : GitOpts) : List String :=
  match o GitOptKey.namespace_ with
  | OptVal.val (GVal.str s) => ["--namespace", s]
  | _ => []

/-- `GitCommand._main_cmd_bare_args` (base.py lines 136-140): emits
`--bare` for every value that is neither `None` nor `UNSET`. -/
def _main_cmd_bare_args (o : GitOpts) : List String :=
  match o GitOptKey.bare with
  | OptVal.none => []
  | OptVal.unset => []
  | OptVal.val _ => ["--bare"]

/-- `GitCommand._main_cmd_no_replace_objects_args`. -/
def _main_cmd_no_replace_objects_args (o : GitOpts) : List String :=
  match o GitOptKey.no_replace_objects with
  | OptVal.none => []
  | OptVal.unset => []
  | OptVal.val _ => ["--no-replace-objects"]

/-- `GitCommand._main_cmd_no_lazy_fetch_args`. -/
def _main_cmd_no_lazy_fetch_args (o : GitOpts) : List String :=
  match o GitOptKey.no_lazy_fetch with
  | OptVal.none => []
  | OptVal.unset => []
  | OptVal.val _ => ["--no-lazy-fetch"]

/-- `GitCommand._main_cmd_no_optional_locks_args`. -/
def _main_cmd_no_optional_locks_args (o : GitOpts) : List String :=
  match o GitOptKey.no_optional_locks with
  | OptVal.none => []
  | OptVal.unset => []
  | OptVal.val _ => ["--no-optional-locks"]

/-- `GitCommand._main_cmd_no_advice_args`. -/
def _main_cmd_no_advice_args (o : GitOpts) : List String :=
  match o GitOptKey.no_advice with
  | OptVal.none => []
  | OptVal.unset => []
  | OptVal.val _ => ["--no-advice"]

/-- `GitCommand._main_cmd_literal_pathspecs_args`. -/
def _main_cmd_literal_pathspecs_args (o : GitOpts) : List String :=
  match o GitOptKey.literal_pathspecs with
  | OptVal.none => []
  | OptVal.unset => []
  | OptVal.val _ => ["--literal-pathspecs"]

/-- `GitCommand._main_cmd_glob_pathspecs_args`. -/
def _main_cmd_glob_pathspecs_args (o : GitOpts) : List String :=
  match o GitOptKey.glob_pathspecs with
  | OptVal.none => []
  | OptVal.unset => []
  | OptVal.val _ => ["--glob-pathspecs"]

/-- `GitCommand._main_cmd_noglob_pathspecs_args`. -/
def _main_cmd_noglob_pathspecs_args (o : GitOpts) : List String :=
  match o GitOptKey.noglob_pathspecs with
  | OptVal.none => []
  | OptVal.unset => []
  | OptVal.val _ => ["--noglob-pathspecs"]

/-- `GitCommand._main_cmd_icase_pathspecs_args`. -/
def _main_cmd_icase_pathspecs_args (o : GitOpts) : List String :=
  match o GitOptKey.icase_pathspecs with
  | OptVal.none => []
  | OptVal.unset => []
  | OptVal.val _ => ["--icase-pathspecs"]

/-- `GitCommand._main_cmd_list_cmds_args`: `["--list-cmds", cmd]` per element. -/
def _main_cmd_list_cmds_args (o : GitOpts) : List String :=
  match o GitOptKey.list_cmds with
  | OptVal.val (GVal.strs cmds) => cmds.flatMap (fun cmd => ["--list-cmds", cmd])
  | _ => []

/-- `GitCommand._main_cmd_attr_source_args`: `["--attr-source", val]`. -/
def _main_cmd_attr_source_args (o : GitOpts) : List String :=
  match o GitOptKey.attr_source with
  | OptVal.val (GVal.str s) => ["--attr-source", s]
  | _ => []

/-- `GitCommand.build_main_cmd_args` (base.py lines 41-70): the
concatenation of the twenty per-option token sequences, in the fixed
order written in the source. -/
def build_main_cmd_args (o : GitOpts) : List String :=
  _main_cmd_cap_c_args o ++
  _main_cmd_small_c_args o ++
  _main_cmd_config_env_args o ++
  _main_cmd_exec_path_args o ++
  _main_cmd_paginate_args o ++
  _main_cmd_no_pager_args o ++
  _main_cmd_git_dir_args o ++
  _main_cmd_work_tree_args o ++
  _main_cmd_namespace_args o ++
  _main_cmd_bare_args o ++
  _main_cmd_no_replace_objects_args o ++
  _main_cmd_no_lazy_fetch_args o ++
  _main_cmd_no_optional_locks_args o ++
  _main_cmd_no_advice_args o ++
  _main_cmd_literal_pathspecs_args o ++
  _main_cmd_glob_pathspecs_args o ++
  _main_cmd_noglob_pathspecs_args o ++
  _main_cmd_icase_pathspecs_args o ++
  _main_cmd_list_cmds_args o ++
  _main_cmd_attr_source_args o

/-! ## Validation layer (`src/vt/vcs/git/gitlib/utils.py`)

The Python validators interleave `require_type`/`require_iterable` checks
with logical checks.  The embedding takes the statically typed inputs the
TypedDicts declare, on which every type check succeeds by construction;
only the logical checks (range, exclusivity, completeness) remain. -/

/-- The `GitLsTreeOpts` TypedDict (`models.py`): a kwargs dict, each key
optional.  `abbrev` is a Lean keyword, hence `abbrev_`; `format_` is the
source's own spelling. -/
structure GitLsTreeOpts where
  d : Option Bool := Option.none
  r : Option Bool := Option.none
  t : Option Bool := Option.none
  long : Option Bool := Option.none
  z : Option Bool := Option.none
  name_only : Option Bool := Option.none
  name_status : Option Bool := Option.none
  object_only : Option Bool := Option.none
  full_name : Option Bool := Option.none
  full_tree : Option Bool := Option.none
  abbrev_ : Option Int := Option.none
  format_ : Option String := Option.none
  path : Option (List String) := Option.none
deriving DecidableEq

/-- `validate_ls_tree_args` from `utils.py` lines 105-196 on statically
typed input: `require_type` on `tree_ish`, the ten boolean flags,
`abbrev`, `format_` and `path` always succeeds, so the only remaining
check is the `abbrev` range check of lines 183-188, which raises
`GitExitingException` with `ERR_INVALID_USAGE` outside `0..=40`. -/
def validate_ls_tree_args (_tree_ish : String) (opts : GitLsTreeOpts) :
    Except GitExitingException Unit :=
  match opts.abbrev_ with
  | Option.some abbrev_ =>
      if ¬ (0 ≤ abbrev_ ∧ abbrev_ ≤ 40) then
        Except.error ⟨"abbrev must be between 0 and 40.", ErrCode.invalidUsage⟩
      else Except.ok ()
  | Option.none => Except.ok ()

/-- The `chmod` enum of `GitAddOpts`: exactly `"+x"` or `"-x"`. -/
inductive Chmod where
  | plus_x
  | minus_x
deriving DecidableEq

/-- The `GitAddOpts` TypedDict (`models.py`): twelve plain boolean flags,
two tri-state flags and the `chmod` enum, each key optional. -/
structure GitAddOpts where
  verbose : Option Bool := Option.none
  dry_run : Option Bool := Option.none
  force : Option Bool := Option.none
  interactive : Option Bool := Option.none
  patch : Option Bool := Option.none
  edit : Option Bool := Option.none
  no_all : Option Bool := Option.none
  no_ignore_removal : Option Bool := Option.none
  sparse : Option Bool := Option.none
  intent_to_add : Option Bool := Option.none
  refresh : Option Bool := Option.none
  ignore_errors : Option Bool := Option.none
  ignore_missing : Option Bool := Option.none
  renormalize : Option Bool := Option.none
  chmod : Option Chmod := Option.none
deriving DecidableEq

/-- The `pathspec_from_file` argument: `Path | Literal['-']`. -/
inductive FromFile where
  | dash
  | path (p : String)
deriving DecidableEq

/-- `errmsg_creator.not_allowed_together` of the external `ErrorMsgFormer`;
wording taken from the doctest outputs in `utils.py` (for example
`pathspec and pathspec_from_file are not allowed together`). -/
def notAllowedTogether (a b : String) : String :=
  a ++ " and " ++ b ++ " are not allowed together"

/-- `errmsg_creator.all_required` of the external `ErrorMsgFormer`; wording
taken from the doctest output in `utils.py` (`Both pathspec_stdin and
pathspec_from_file are required when pathspec_from_file is '-'.`). -/
def allRequired (a b suffix : String) : String :=
  "Both " ++ a ++ " and " ++ b ++ " are required" ++ suffix

/-- The argument-exclusivity region of `validate_add_args` (`utils.py`
lines 306-321): when a direct pathspec is supplied
(`has_atleast_one_arg(pathspec, *pathspecs)`), neither
`pathspec_from_file`, nor `pathspec_stdin`, nor `pathspec_file_nul` may
accompany it.  `ensure_atleast_one_arg(..., enforce_type=str)` succeeds on
the typed input. -/
def addDirectPathspecChecks (pathspec : Option String) (pathspecs : List String)
    (pathspec_from_file : Option FromFile) (pathspec_stdin : Option String)
    (pathspec_file_nul : Bool) : Except GitExitingException Unit :=
  if pathspec.isSome ∨ pathspecs ≠ [] then
    if pathspec_from_file.isSome then
      Except.error ⟨notAllowedTogether "pathspec" "pathspec_from_file", ErrCode.invalidUsage⟩
    else if pathspec_stdin.isSome then
      Except.error ⟨notAllowedTogether "pathspec" "pathspec_stdin", ErrCode.invalidUsage⟩
    else if pathspec_file_nul then
      Except.error ⟨notAllowedTogether "pathspec_file_nul" "pathspec", ErrCode.invalidUsage⟩
    else Except.ok ()
  else Except.ok ()

/-- The stdin-completeness region of `validate_add_args` (`utils.py` lines
323-329): `pathspec_from_file == '-'` requires `pathspec_stdin`, and
`pathspec_stdin` is only allowed with `pathspec_from_file == '-'`. -/
def addStdinChecks (pathspec_from_file : Option FromFile)
    (pathspec_stdin : Option String) : Except GitExitingException Unit :=
  if pathspec_from_file = Option.some FromFile.dash ∧ pathspec_stdin = Option.none then
    Except.error ⟨allRequired "pathspec_stdin" "pathspec_from_file"
      " when pathspec_from_file is '-'.", ErrCode.invalidUsage⟩
  else if pathspec_from_file ≠ Option.some FromFile.dash ∧ pathspec_stdin.isSome then
    Except.error ⟨"pathspec_stdin is not allowed unless pathspec_from_file is '-'.",
      ErrCode.invalidUsage⟩
  else Except.ok ()

/-- `validate_add_args` from `utils.py` lines 199-374 on statically typed
input: the two logical regions run in source order; the remaining regions
(boolean/tri-state/chmod/`pathspec_from_file` type checks) always succeed
on these statically typed inputs. -/
def validate_add_args (pathspec : Option String) (pathspecs : List String)
    (pathspec_from_file : Option FromFile) (pathspec_stdin : Option String)
    (pathspec_file_nul : Bool) (_add_opts : GitAddOpts) :
    Except GitExitingException Unit := do
  addDirectPathspecChecks pathspec pathspecs pathspec_from_file pathspec_stdin pathspec_file_nul
  addStdinChecks pathspec_from_file pathspec_stdin

/-! ## Subprocess implementation
(`src/vt/vcs/git/gitlib/git_subprocess/impl/simple.py`)

The subcommand implementations validate, then assemble the main-command
argument list by calling `self.underlying_git.compute_main_cmd_args()`,
then hand both argument lists to the runner.  `ExecOutcome` records which
of the three ways such an invocation can end. -/

/-- `LS_TREE_CMD` lives in `git_subprocess/constants.py`, which this
snapshot lacks; its value is fixed by the doctests of
`LsTreeCommand.build_sub_cmd_args` (`['ls-tree', ...]`). -/
def LS_TREE_CMD : String := "ls-tree"

/-- Modelled from the spec: `VERSION_CMD` lives in the missing
`git_subprocess/constants.py`; the spec's version-query operation runs the
`version` subcommand. -/
def VERSION_CMD : String := "version"

/-- Modelled from the spec: `ADD_CMD` lives in the missing
`git_subprocess/constants.py`; the spec's staging operation runs the
`add` subcommand. -/
def ADD_CMD : String := "add"

/-- How one subcommand invocation ends: a `GitExitingException` from
validation, a host-level `AttributeError` naming the missing attribute, or
a call into the external command runner carrying the main-command
arguments, the subcommand arguments and optional stdin content. -/
inductive ExecOutcome where
  | raisedGit (e : GitExitingException)
  | raisedAttrError (attr : String)
  | ran (mainArgs : List String) (subArgs : List String) (inputData : Option String)
deriving DecidableEq

/-- The attribute names a `SimpleGitCommand` instance resolves: the class
bodies of `GitCommand` (`git_subprocess/base.py`) and `SimpleGitCommand`
(`impl/simple.py`), the `Git` protocol (`gitlib/base.py`), the external
`RootDirOp` protocol and the instance attributes set in the
constructors. -/
def gitCommandAttrNames : List String :=
  ["runner", "_main_cmd_opts",
   "git_opts_override", "build_main_cmd_args",
   "_main_cmd_cap_c_args", "_main_cmd_small_c_args", "_main_cmd_config_env_args",
   "_main_cmd_exec_path_args", "_main_cmd_paginate_args", "_main_cmd_no_pager_args",
   "_main_cmd_git_dir_args", "_main_cmd_work_tree_args", "_main_cmd_namespace_args",
   "_main_cmd_bare_args", "_main_cmd_no_replace_objects_args",
   "_main_cmd_no_lazy_fetch_args", "_main_cmd_no_optional_locks_args",
   "_main_cmd_no_advice_args", "_main_cmd_literal_pathspecs_args",
   "_main_cmd_glob_pathspecs_args", "_main_cmd_noglob_pathspecs_args",
   "_main_cmd_icase_pathspecs_args", "_main_cmd_list_cmds_args",
   "_main_cmd_attr_source_args",
   "html_path", "info_path", "man_path", "exec_path", "_get_path",
   "version", "version_subcmd", "ls_tree_subcmd", "add_subcmd", "clone",
   "root_dir", "git_root_dir",
   "_version_subcmd", "_ls_tree", "_add_subcmd"]

/-- Python truthiness of an optional boolean kwarg
(`if ls_tree_opts.get('d'): ...`). -/
def optTrue (v : Option Bool) : Bool := v.getD false

/-- The subcommand argument list assembled by `LsTreeCommandImpl.ls_tree`
(`impl/simple.py` lines 63-102): the `ls-tree` token, the ten boolean
flags, `--abbrev=N` and `--format=F` when present, the tree-ish, then the
optional trailing path list. -/
def lsTreeSubCmdArgs (tree_ish : String) (opts : GitLsTreeOpts) : List String :=
  [LS_TREE_CMD] ++
  (if optTrue opts.d then ["-d"] else []) ++
  (if optTrue opts.r then ["-r"] else []) ++
  (if optTrue opts.t then ["-t"] else []) ++
  (if optTrue opts.long then ["-l"] else []) ++
  (if optTrue opts.z then ["-z"] else []) ++
  (if optTrue opts.name_only then ["--name-only"] else []) ++
  (if optTrue opts.name_status then ["--name-status"] else []) ++
  (if optTrue opts.object_only then ["--object-only"] else []) ++
  (if optTrue opts.full_name then ["--full-name"] else []) ++
  (if optTrue opts.full_tree then ["--full-tree"] else []) ++
  (match opts.abbrev_ with
   | Option.some a => ["--abbrev=" ++ toString a]
   | Option.none => []) ++
  (match opts.format_ with
   | Option.some f => ["--format=" ++ f]
   | Option.none => []) ++
  [tree_ish] ++
  opts.path.getD []

/-- `VersionCommandImpl.version` (`impl/simple.py` lines 39-47).
`self.require_valid_args(build_options)` is modelled from the spec (the
snapshot has only its call site): the version validator type-checks
`build_options`, which always succeeds on a statically typed boolean.
The next step resolves `compute_main_cmd_args` on the underlying
`GitCommand`. -/
def versionImpl (o : GitOpts) (build_options : Bool) : ExecOutcome :=
  if "compute_main_cmd_args" ∈ gitCommandAttrNames then
    ExecOutcome.ran (build_main_cmd_args o)
      ([VERSION_CMD] ++ if build_options then ["--build-options"] else [])
      Option.none
  else ExecOutcome.raisedAttrError "compute_main_cmd_args"

/-- `LsTreeCommandImpl.ls_tree` (`impl/simple.py` lines 59-114).
`self._require_valid_args` is modelled from the spec (the snapshot has
only its call sites): per `UtilLsTreeArgsValidator` the ls-tree validator
is `validate_ls_tree_args`.  After validation the code resolves
`compute_main_cmd_args` on the underlying `GitCommand`. -/
def lsTreeImpl (o : GitOpts) (tree_ish : String) (opts : GitLsTreeOpts) : ExecOutcome :=
  match validate_ls_tree_args tree_ish opts with
  | Except.error e => ExecOutcome.raisedGit e
  | Except.ok _ =>
      if "compute_main_cmd_args" ∈ gitCommandAttrNames then
        ExecOutcome.ran (build_main_cmd_args o) (lsTreeSubCmdArgs tree_ish opts) Option.none
      else ExecOutcome.raisedAttrError "compute_main_cmd_args"

/-- `str(pathspec_from_file)`. -/
def FromFile.str : FromFile → String
  | FromFile.dash => "-"
  | FromFile.path p => p

/-- Modelled from the spec: the wording of the external
`errmsg_creator.at_least_one_required` is not in this snapshot; only its
`ERR_INVALID_USAGE` discriminant is observable here. -/
def atLeastOneRequired (a b c : String) : String :=
  "At least one of " ++ a ++ ", " ++ b ++ ", " ++ c ++ " is required"

/-- `errmsg_creator.not_allowed_together` with its `suffix` keyword, as
called at `impl/simple.py` line 206. -/
def notAllowedTogetherSfx (a b suffix : String) : String :=
  notAllowedTogether a b ++ suffix

/-- The subcommand argument list and stdin content assembled by
`AddCommandImpl.add` after its exclusivity checks (`impl/simple.py` lines
211-269): the `add` token, the twelve truthy flags in source order, the
two tri-state flags, `--chmod=...`, then either the from-file arguments
(with stdin content exactly when the file is `-`) or the direct pathspec
list, or the at-least-one-required error. -/
def addSubCmdArgs (pathspec : Option (List String)) (pathspec_from_file : Option FromFile)
    (pathspec_stdin : Option String) (pathspec_file_null : Bool) (a : GitAddOpts) :
    Except GitExitingException (List String × Option String) :=
  let flags :=
    (if optTrue a.verbose then ["--verbose"] else []) ++
    (if optTrue a.dry_run then ["--dry-run"] else []) ++
    (if optTrue a.force then ["--force"] else []) ++
    (if optTrue a.interactive then ["--interactive"] else []) ++
    (if optTrue a.patch then ["--patch"] else []) ++
    (if optTrue a.edit then ["--edit"] else []) ++
    (if optTrue a.sparse then ["--sparse"] else []) ++
    (if optTrue a.intent_to_add then ["--intent-to-add"] else []) ++
    (if optTrue a.refresh then ["--refresh"] else []) ++
    (if optTrue a.ignore_errors then ["--ignore-errors"] else []) ++
    (if optTrue a.ignore_missing then ["--ignore-missing"] else []) ++
    (if optTrue a.renormalize then ["--renormalize"] else []) ++
    (match a.no_all with
     | Option.some true => ["--no-all"]
     | Option.some false => ["--all"]
     | Option.none => []) ++
    (match a.no_ignore_removal with
     | Option.some true => ["--no-ignore-removal"]
     | Option.some false => ["--ignore-removal"]
     | Option.none => []) ++
    (match a.chmod with
     | Option.some Chmod.plus_x => ["--chmod=+x"]
     | Option.some Chmod.minus_x => ["--chmod=-x"]
     | Option.none => [])
  match pathspec_from_file with
  | Option.some ff =>
      Except.ok ([ADD_CMD] ++ flags ++ ["--pathspec-from-file=" ++ ff.str] ++
        (if pathspec_file_null then ["--pathspec-file-nul"] else []),
        if ff = FromFile.dash then pathspec_stdin else Option.none)
  | Option.none =>
      match pathspec with
      | Option.some ps => Except.ok ([ADD_CMD] ++ flags ++ ps, Option.none)
      | Option.none =>
          Except.error ⟨atLeastOneRequired "pathspec" "pathspec_from_file"
            "'pathspec_stdin' when pathspec_from_file=-", ErrCode.invalidUsage⟩

/-- `AddCommandImpl.add` (`impl/simple.py` lines 184-281): the four
exclusivity/completeness checks of lines 195-208 run first; the very next
step (line 210) resolves `compute_main_cmd_args` on the underlying
`GitCommand`, before any subcommand argument is assembled. -/
def addImpl (o : GitOpts) (pathspec : Option (List String))
    (pathspec_from_file : Option FromFile) (pathspec_stdin : Option String)
    (pathspec_file_null : Bool) (a : GitAddOpts) : ExecOutcome :=
  if pathspec.isSome ∧ pathspec_from_file.isSome then
    ExecOutcome.raisedGit ⟨notAllowedTogether "pathspec" "pathspec_from_file",
      ErrCode.invalidUsage⟩
  else if pathspec.isSome ∧ pathspec_stdin.isSome then
    ExecOutcome.raisedGit ⟨notAllowedTogether "pathspec" "pathspec_stdin",
      ErrCode.invalidUsage⟩
  else if pathspec_from_file = Option.some FromFile.dash ∧ pathspec_stdin = Option.none then
    ExecOutcome.raisedGit ⟨allRequired "pathspec_stdin" "pathspec_from_file"
      " when pathspec_from_file is '-'.", ErrCode.invalidUsage⟩
  else if pathspec_from_file ≠ Option.some FromFile.dash ∧ pathspec_stdin.isSome then
    ExecOutcome.raisedGit ⟨notAllowedTogetherSfx "pathspec_form_file" "pathspec_stdin"
      " when pathspec_from_file is not equal to '-'.", ErrCode.invalidUsage⟩
  else if "compute_main_cmd_args" ∈ gitCommandAttrNames then
    match addSubCmdArgs pathspec pathspec_from_file pathspec_stdin pathspec_file_null a with
    | Except.ok (subArgs, inputData) =>
        ExecOutcome.ran (build_main_cmd_args o) subArgs inputData
    | Except.error e => ExecOutcome.raisedGit e
  else ExecOutcome.raisedAttrError "compute_main_cmd_args"

/-! ## Object identity and mutation: Command objects and facades

`git_opts_override` lives both on `GitCommand` (`git_subprocess/base.py`
lines 34-39) and on the facade mixin `GitSubcmdCommand` (lines 257-261).
To talk about object identity (`is`), sharing and in-place mutation, the
Python heap is embedded as a store of numbered objects: `GitObj` mirrors a
`SimpleGitCommand` (its `_main_cmd_opts` plus the three stored facade
references) and `FacadeObj` mirrors a `GitSubcmdCommandImpl` (its
`_underlying_git` reference).  Operations return the updated store and the
id of the object the Python method returns. -/

/-- A `SimpleGitCommand` object: `_main_cmd_opts` and the facade
references `_version_subcmd`, `_ls_tree`, `_add_subcmd`. -/
structure GitObj where
  opts : GitOpts
  versionSub : Nat
  lsTreeSub : Nat
  addSub : Nat

/-- A `GitSubcmdCommandImpl` object: its `_underlying_git` reference. -/
structure FacadeObj where
  underlying_git : Nat

/-- The heap: allocated `SimpleGitCommand`s and facade objects, addressed
by allocation index. -/
structure Store where
  gits : List GitObj
  facades : List FacadeObj

/-- Out-of-store default (never reached under the in-range hypotheses). -/
def defGit : GitObj := ⟨emptyGitOpts, 0, 0, 0⟩

/-- Out-of-store default (never reached under the in-range hypotheses). -/
def defFacade : FacadeObj := ⟨0⟩

/-- Read a Command object. -/
def Store.git (s : Store) (gid : Nat) : GitObj := s.gits.getD gid defGit

/-- Read a facade object. -/
def Store.facade (s : Store) (fid : Nat) : FacadeObj := s.facades.getD fid defFacade

/-- `SimpleGitCommand.clone` (`impl/simple.py` lines 319-324): allocates a
new `SimpleGitCommand` with the same root dir and runner and the *same
three facade objects* (`version_subcmd=self.version_subcmd`, ...);
`GitCommand.__init__` initialises the new object's `_main_cmd_opts` to
`{}`. -/
def cloneGit (s : Store) (gid : Nat) : Store × Nat :=
  ({ s with gits := s.gits ++ [{ s.git gid with opts := emptyGitOpts }] },
   s.gits.length)

/-- Replace one Command object's `_main_cmd_opts`. -/
def setGitOpts (s : Store) (gid : Nat) (o : GitOpts) : Store :=
  { s with gits := s.gits.set gid { s.git gid with opts := o } }

/-- `GitCommand.git_opts_override` (`git_subprocess/base.py` lines 34-39):
`_git_cmd = self.clone()`, then
`_git_cmd._main_cmd_opts = merge_git_opts(overrides, self._main_cmd_opts)`,
then return `_git_cmd`. -/
def gitOptsOverride (s : Store) (gid : Nat) (overrides : GitOpts) : Store × Nat :=
  let r := cloneGit s gid
  (setGitOpts r.1 r.2 (merge_git_opts overrides (s.git gid).opts), r.2)

/-- `GitSubcmdCommand.git_opts_override` (`git_subprocess/base.py` lines
257-261): `overridden_git = self.underlying_git.git_opts_override(...)`,
then `self._set_underlying_git(overridden_git)` (an in-place update of
`_underlying_git`, per `GitSubcmdCommandImpl._set_underlying_git`), then
`return self`. -/
def facadeGitOptsOverride (s : Store) (fid : Nat) (overrides : GitOpts) : Store × Nat :=
  let r := gitOptsOverride s (s.facade fid).underlying_git overrides
  ({ r.1 with facades := r.1.facades.set fid ⟨r.2⟩ }, fid)

/-- `SimpleGitCommand()` (`impl/simple.py` lines 294-302): the constructor
allocates the Command object and, the optional constructor arguments being
absent, one facade per subcommand, each holding the fresh Command as its
`_underlying_git`. -/
def initStore : Store :=
  { gits := [⟨emptyGitOpts, 0, 1, 2⟩],
    facades := [⟨0⟩, ⟨0⟩, ⟨0⟩] }

/-- The Main OptionSet a subcommand call reads at call time through a
facade: the facade's `self.underlying_git` dereference
(`main_cmd_args = self.underlying_git.compute_main_cmd_args()`,
`impl/simple.py` lines 42, 62 and 210) reads the `_main_cmd_opts` of the
Command object the facade currently references. -/
def readMainOptsViaFacade (s : Store) (fid : Nat) : GitOpts :=
  (s.git (s.facade fid).underlying_git).opts

/-! ## Derived notions and concrete inputs used by the theorems below -/

/-- A one-keyword kwargs dict, as passed to
`git_opts_override(key=value)`: the named key holds the value, every
other declared key reads as `None`. -/
def singleKw (k : GitOptKey) (v : OptVal GVal) : GitOpts :=
  GitOpts.set emptyGitOpts k v

/-- A chain of single-keyword `git_opts_override` calls at the option-set
level: each call stores `merge_git_opts(overrides, self._main_cmd_opts)`
(`git_subprocess/base.py` line 37), the new kwargs being the primary and
the current options the fallback. -/
def applyOvChain (base : GitOpts) (l : List (GitOptKey × OptVal GVal)) : GitOpts :=
  l.foldl (fun g kv => merge_git_opts (singleKw kv.1 kv.2) g) base

/-- The per-entry rendering table for config-variable maps in the words of
the spec (spec section 4.2): boolean `true`/`None` give the bare key,
`false` gives `key=`, any other value gives `key=value`, and `Cleared`
entries are skipped entirely.  A refinement target, to be compared with
the source-derived `cEntryArgs`. -/
def cEntryArgsSpec : String × CVal → List String
  | (k, CVal.boolean true) => ["-c", k]
  | (k, CVal.none) => ["-c", k]
  | (k, CVal.boolean false) => ["-c", k ++ "="]
  | (k, CVal.str v) => ["-c", k ++ "=" ++ v]
  | (_, CVal.unset) => []

/-- The exit code of a validation result, when it is an error. -/
def errCodeOf : Except GitExitingException Unit → Option ErrCode
  | Except.error e => Option.some e.exit_code
  | Except.ok _ => Option.none

/-- The exit code of an invocation outcome, when it ended in a raised
`GitExitingException` (in particular: the runner was not called and no
attribute lookup failed). -/
def raisedErrCode : ExecOutcome → Option ErrCode
  | ExecOutcome.raisedGit e => Option.some e.exit_code
  | _ => Option.none

/-- The kwargs dict `{paginate: True}`. -/
def ovPag : GitOpts := singleKw GitOptKey.paginate (OptVal.val (GVal.boolean true))

/-- The option set `{paginate: False}`: the tri-state `Explicit(false)`. -/
def exPagFalse : GitOpts := singleKw GitOptKey.paginate (OptVal.val (GVal.boolean false))

/-- An option set with no `Absent` key at all: every key explicitly
cleared. -/
def allUnsetOpts : GitOpts := fun _ => OptVal.unset

/-- Two override chains supplying the same two options in opposite
orders. -/
def c3chainA : List (GitOptKey × OptVal GVal) :=
  [(GitOptKey.exec_path, OptVal.val (GVal.str "tmp")),
   (GitOptKey.C, OptVal.val (GVal.strs ["."]))]

/-- See `c3chainA`. -/
def c3chainB : List (GitOptKey × OptVal GVal) :=
  [(GitOptKey.C, OptVal.val (GVal.strs ["."])),
   (GitOptKey.exec_path, OptVal.val (GVal.str "tmp"))]

/-- The config-variable map `{"foo.bar": True, "baz": False, "x": UNSET}`
of the spec's concrete scenario. -/
def c7map : List (String × CVal) :=
  [("foo.bar", CVal.boolean true), ("baz", CVal.boolean false), ("x", CVal.unset)]

/-- ls-tree kwargs carrying only an abbreviation length. -/
def abbrevOpts (n : Int) : GitLsTreeOpts := { abbrev_ := Option.some n }

/-! ## Helper lemmas -/

theorem getD_append_lt {α : Type} (l₁ l₂ : List α) (d : α) (n : Nat)
    (h : n < l₁.length) : (l₁ ++ l₂).getD n d = l₁.getD n d :=
  List.getD_append _ _ _ _ h

theorem getD_append_len {α : Type} (l : List α) (x d : α) :
    (l ++ [x]).getD l.length d = x := by
  simp [List.getD_append_right, List.getD]

theorem getD_set_self {α : Type} (l : List α) (i : Nat) (x d : α)
    (h : i < l.length) : (l.set i x).getD i d = x := by
  simp [List.getD_eq_getElem?_getD, List.getElem?_set_self h]

theorem getD_set_ne {α : Type} (l : List α) (i j : Nat) (x d : α)
    (h : i ≠ j) : (l.set i x).getD j d = l.getD j d := by
  simp [List.getD_eq_getElem?_getD, List.getElem?_set_ne h]

theorem merge_apply (p f : GitOpts) (k : GitOptKey) :
    merge_git_opts p f k = match p k with | OptVal.none => f k | v => v := rfl

/-! ## C1: merge precedence per key -/

/-- C1: for every pair of option sets and every declared main-command
option key, `merge_git_opts` yields the primary's value whenever that
value is not `None` (in particular for `Explicit(False)` and for the
`UNSET` sentinel), and the fallback's value whenever the primary's value
is `None` — which, through `dict.get`, also covers a key missing from the
primary. -/
theorem merge_primary_wins_fallback_on_none (primary fallback : GitOpts) (k : GitOptKey) :
    (primary k ≠ OptVal.none → merge_git_opts primary fallback k = primary k) ∧
    (primary k = OptVal.none → merge_git_opts primary fallback k = fallback k) := by
  constructor <;> intro h <;>
    cases hp : primary k <;> rw [merge_apply, hp] <;> simp_all

/-- Witness for C1 at concrete inputs: `{paginate: False}` as primary
keeps `Explicit(False)` against a `{paginate: True}` fallback, and the
empty primary falls back for `paginate`. -/
theorem merge_primary_wins_fallback_on_none_witness :
    (exPagFalse GitOptKey.paginate ≠ OptVal.none ∧
      merge_git_opts exPagFalse ovPag GitOptKey.paginate = exPagFalse GitOptKey.paginate) ∧
    (emptyGitOpts GitOptKey.paginate = OptVal.none ∧
      merge_git_opts emptyGitOpts ovPag GitOptKey.paginate = ovPag GitOptKey.paginate) :=
  ⟨⟨by decide,
    (merge_primary_wins_fallback_on_none exPagFalse ovPag GitOptKey.paginate).1 (by decide)⟩,
   ⟨by decide,
    (merge_primary_wins_fallback_on_none emptyGitOpts ovPag GitOptKey.paginate).2 (by decide)⟩⟩

/-! ## C6: merge identity laws -/

/-- C6: merging an all-`Absent` primary over any option set gives that
option set back, and merging an option set with no `Absent` key over any
fallback gives the primary back. -/
theorem merge_identity_laws :
    (∀ X : GitOpts, merge_git_opts emptyGitOpts X = X) ∧
    (∀ X Y : GitOpts, (∀ k, X k ≠ OptVal.none) → merge_git_opts X Y = X) := by
  constructor
  · intro X
    funext k
    rw [merge_apply]
    rfl
  · intro X Y h
    funext k
    cases hx : X k with
    | none => exact absurd hx (h k)
    | unset => rw [merge_apply, hx]
    | val v => rw [merge_apply, hx]

/-- Witness for C6: the all-`Cleared` option set has no `Absent` key and
absorbs a `{paginate: True}` fallback; the empty primary is the identity
on `{paginate: True}`. -/
theorem merge_identity_laws_witness :
    (∀ k, allUnsetOpts k ≠ OptVal.none) ∧
    merge_git_opts allUnsetOpts ovPag = allUnsetOpts ∧
    merge_git_opts emptyGitOpts ovPag = ovPag :=
  ⟨by decide,
   merge_identity_laws.2 allUnsetOpts ovPag (by decide),
   merge_identity_laws.1 ovPag⟩

/-! ## C2: flag-only boolean options -/

/-- Counterexample to C2: with `paginate` stored as `Explicit(False)`,
`GitCommand._main_cmd_paginate_args` emits `--paginate` — not the empty
token sequence — and coincides with the output for `Explicit(True)`, so
the `True` and `False` outputs are not disjoint. -/
theorem paginate_false_emits_token :
    exPagFalse GitOptKey.paginate = OptVal.val (GVal.boolean false) ∧
    _main_cmd_paginate_args exPagFalse ≠ [] ∧
    _main_cmd_paginate_args exPagFalse = ["--paginate"] ∧
    _main_cmd_paginate_args ovPag = ["--paginate"] := by
  refine ⟨by decide, by decide, by decide, by decide⟩

/-- C2 as the code has it: for every flag-only main-command boolean option
with no negated form, the formatter emits the option's positive token for
*every* explicitly stored value — `Explicit(True)` and `Explicit(False)`
alike (the value is not inspected) — while `None` (`Absent`) and the
`UNSET` sentinel (`Cleared`) both produce the empty token sequence. -/
theorem flag_only_options_emit_on_any_explicit_value (o : GitOpts) (v : GVal) :
    (_main_cmd_paginate_args (o.set GitOptKey.paginate (OptVal.val v)) = ["--paginate"] ∧
     _main_cmd_paginate_args (o.set GitOptKey.paginate OptVal.none) = [] ∧
     _main_cmd_paginate_args (o.set GitOptKey.paginate OptVal.unset) = []) ∧
    (_main_cmd_no_pager_args (o.set GitOptKey.no_pager (OptVal.val v)) = ["--no-pager"] ∧
     _main_cmd_no_pager_args (o.set GitOptKey.no_pager OptVal.none) = [] ∧
     _main_cmd_no_pager_args (o.set GitOptKey.no_pager OptVal.unset) = []) ∧
    (_main_cmd_bare_args (o.set GitOptKey.bare (OptVal.val v)) = ["--bare"] ∧
     _main_cmd_bare_args (o.set GitOptKey.bare OptVal.none) = [] ∧
     _main_cmd_bare_args (o.set GitOptKey.bare OptVal.unset) = []) ∧
    (_main_cmd_no_replace_objects_args
        (o.set GitOptKey.no_replace_objects (OptVal.val v)) = ["--no-replace-objects"] ∧
     _main_cmd_no_replace_objects_args
        (o.set GitOptKey.no_replace_objects OptVal.none) = [] ∧
     _main_cmd_no_replace_objects_args
        (o.set GitOptKey.no_replace_objects OptVal.unset) = []) ∧
    (_main_cmd_no_lazy_fetch_args
        (o.set GitOptKey.no_lazy_fetch (OptVal.val v)) = ["--no-lazy-fetch"] ∧
     _main_cmd_no_lazy_fetch_args (o.set GitOptKey.no_lazy_fetch OptVal.none) = [] ∧
     _main_cmd_no_lazy_fetch_args (o.set GitOptKey.no_lazy_fetch OptVal.unset) = []) ∧
    (_main_cmd_no_optional_locks_args
        (o.set GitOptKey.no_optional_locks (OptVal.val v)) = ["--no-optional-locks"] ∧
     _main_cmd_no_optional_locks_args
        (o.set GitOptKey.no_optional_locks OptVal.none) = [] ∧
     _main_cmd_no_optional_locks_args
        (o.set GitOptKey.no_optional_locks OptVal.unset) = []) ∧
    (_main_cmd_no_advice_args (o.set GitOptKey.no_advice (OptVal.val v)) = ["--no-advice"] ∧
     _main_cmd_no_advice_args (o.set GitOptKey.no_advice OptVal.none) = [] ∧
     _main_cmd_no_advice_args (o.set GitOptKey.no_advice OptVal.unset) = []) ∧
    (_main_cmd_literal_pathspecs_args
        (o.set GitOptKey.literal_pathspecs (OptVal.val v)) = ["--literal-pathspecs"] ∧
     _main_cmd_literal_pathspecs_args
        (o.set GitOptKey.literal_pathspecs OptVal.none) = [] ∧
     _main_cmd_literal_pathspecs_args
        (o.set GitOptKey.literal_pathspecs OptVal.unset) = []) ∧
    (_main_cmd_glob_pathspecs_args
        (o.set GitOptKey.glob_pathspecs (OptVal.val v)) = ["--glob-pathspecs"] ∧
     _main_cmd_glob_pathspecs_args (o.set GitOptKey.glob_pathspecs OptVal.none) = [] ∧
     _main_cmd_glob_pathspecs_args (o.set GitOptKey.glob_pathspecs OptVal.unset) = []) ∧
    (_main_cmd_noglob_pathspecs_args
        (o.set GitOptKey.noglob_pathspecs (OptVal.val v)) = ["--noglob-pathspecs"] ∧
     _main_cmd_noglob_pathspecs_args (o.set GitOptKey.noglob_pathspecs OptVal.none) = [] ∧
     _main_cmd_noglob_pathspecs_args (o.set GitOptKey.noglob_pathspecs OptVal.unset) = []) ∧
    (_main_cmd_icase_pathspecs_args
        (o.set GitOptKey.icase_pathspecs (OptVal.val v)) = ["--icase-pathspecs"] ∧
     _main_cmd_icase_pathspecs_args (o.set GitOptKey.icase_pathspecs OptVal.none) = [] ∧
     _main_cmd_icase_pathspecs_args (o.set GitOptKey.icase_pathspecs OptVal.unset) = []) := by
  simp [GitOpts.set, _main_cmd_paginate_args, _main_cmd_no_pager_args, _main_cmd_bare_args,
    _main_cmd_no_replace_objects_args, _main_cmd_no_lazy_fetch_args,
    _main_cmd_no_optional_locks_args, _main_cmd_no_advice_args,
    _main_cmd_literal_pathspecs_args, _main_cmd_glob_pathspecs_args,
    _main_cmd_noglob_pathspecs_args, _main_cmd_icase_pathspecs_args]

/-! ## C7: config-variable map rendering -/

theorem cEntryArgs_eq_spec (kv : String × CVal) : cEntryArgs kv = cEntryArgsSpec kv := by
  rcases kv with ⟨k, v⟩
  cases v with
  | str s => rfl
  | boolean b => cases b <;> rfl
  | none => rfl
  | unset => rfl

theorem cArgsLoop_eq_flatMap (m : List (String × CVal)) :
    cArgsLoop m = m.flatMap cEntryArgsSpec := by
  induction m with
  | nil => rfl
  | cons kv rest ih => simp [cArgsLoop, cEntryArgs_eq_spec, ih]

/-- C7: for every config-variable map supplied as the main-command `c`
option, `GitCommand._main_cmd_small_c_args` renders, per key in iteration
order, the spec's table — `['-c', key]` for `True`/`None`, `['-c', key=]`
for `False`, `['-c', key=value]` for other values, nothing for `UNSET` —
and the spec's concrete scenario renders exactly
`['-c', 'foo.bar', '-c', 'baz=']`. -/
theorem small_c_args_follow_spec_table :
    (∀ m : List (String × CVal),
       _main_cmd_small_c_args
           (GitOpts.set emptyGitOpts GitOptKey.c (OptVal.val (GVal.cmap m)))
         = m.flatMap cEntryArgsSpec) ∧
    _main_cmd_small_c_args
        (GitOpts.set emptyGitOpts GitOptKey.c (OptVal.val (GVal.cmap c7map)))
      = ["-c", "foo.bar", "-c", "baz="] := by
  constructor
  · intro m
    simp [_main_cmd_small_c_args, GitOpts.set, cArgsLoop_eq_flatMap]
  · decide

/-! ## C3: fixed aggregation order, determinism, override-order
independence -/

theorem ovStep_commute (g : GitOpts) (x y : GitOptKey × OptVal GVal) (h : x.1 ≠ y.1) :
    merge_git_opts (singleKw y.1 y.2) (merge_git_opts (singleKw x.1 x.2) g) =
    merge_git_opts (singleKw x.1 x.2) (merge_git_opts (singleKw y.1 y.2) g) := by
  rcases x with ⟨kx, vx⟩
  rcases y with ⟨ky, vy⟩
  simp only at h
  funext k
  by_cases hx : k = kx <;> by_cases hy : k = ky
  · exact absurd (hx.symm.trans hy) h
  all_goals
    cases vx <;> cases vy <;>
      simp [merge_git_opts, singleKw, GitOpts.set, emptyGitOpts, hx, hy, h, Ne.symm h]

theorem applyOvChain_perm (base : GitOpts) {l₁ l₂ : List (GitOptKey × OptVal GVal)}
    (hp : l₁.Perm l₂) (hn : (l₁.map Prod.fst).Nodup) :
    applyOvChain base l₁ = applyOvChain base l₂ := by
  revert hn
  induction hp generalizing base with
  | nil => intro _; rfl
  | cons x p ih =>
      intro hn
      simp only [List.map_cons, List.nodup_cons] at hn
      simp only [applyOvChain, List.foldl_cons]
      exact ih (merge_git_opts (singleKw x.1 x.2) base) hn.2
  | swap x y l =>
      intro hn
      have hyx : y.1 ≠ x.1 := by
        simp only [List.map_cons, List.nodup_cons] at hn
        exact fun he => hn.1 (by simp [he])
      simp only [applyOvChain, List.foldl_cons]
      rw [ovStep_commute base y x hyx]
  | trans p₁ p₂ ih₁ ih₂ =>
      intro hn
      exact (ih₁ base hn).trans (ih₂ base ((p₁.map Prod.fst).nodup_iff.mp hn))

/-- C3: `build_main_cmd_args` is the concatenation of the per-option token
sequences in the one fixed option-identity order `C`, `c`, `config_env`,
`exec_path`, `paginate`, `no_pager`, `git_dir`, `work_tree`, `namespace`,
`bare`, `no_replace_objects`, `no_lazy_fetch`, `no_optional_locks`,
`no_advice`, `literal_pathspecs`, `glob_pathspecs`, `noglob_pathspecs`,
`icase_pathspecs`, `list_cmds`, `attr_source`; formatting the same option
set twice yields identical token sequences; and the token sequence does
not depend on the order in which override calls supplied (distinct)
options. -/
theorem build_main_cmd_args_fixed_order :
    (∀ o : GitOpts, build_main_cmd_args o =
        _main_cmd_cap_c_args o ++ _main_cmd_small_c_args o ++
        _main_cmd_config_env_args o ++ _main_cmd_exec_path_args o ++
        _main_cmd_paginate_args o ++ _main_cmd_no_pager_args o ++
        _main_cmd_git_dir_args o ++ _main_cmd_work_tree_args o ++
        _main_cmd_namespace_args o ++ _main_cmd_bare_args o ++
        _main_cmd_no_replace_objects_args o ++ _main_cmd_no_lazy_fetch_args o ++
        _main_cmd_no_optional_locks_args o ++ _main_cmd_no_advice_args o ++
        _main_cmd_literal_pathspecs_args o ++ _main_cmd_glob_pathspecs_args o ++
        _main_cmd_noglob_pathspecs_args o ++ _main_cmd_icase_pathspecs_args o ++
        _main_cmd_list_cmds_args o ++ _main_cmd_attr_source_args o) ∧
    (∀ o : GitOpts, build_main_cmd_args o = build_main_cmd_args o) ∧
    (∀ (base : GitOpts) (l₁ l₂ : List (GitOptKey × OptVal GVal)),
       l₁.Perm l₂ → (l₁.map Prod.fst).Nodup →
       build_main_cmd_args (applyOvChain base l₁) =
         build_main_cmd_args (applyOvChain base l₂)) :=
  ⟨fun _ => rfl, fun _ => rfl,
   fun base _ _ hp hn => congrArg _ (applyOvChain_perm base hp hn)⟩

/-- Witness for C3: supplying `exec_path` then `C` produces the same token
sequence as supplying `C` then `exec_path`. -/
theorem build_main_cmd_args_fixed_order_witness :
    c3chainA.Perm c3chainB ∧ (c3chainA.map Prod.fst).Nodup ∧
    build_main_cmd_args (applyOvChain emptyGitOpts c3chainA) =
      build_main_cmd_args (applyOvChain emptyGitOpts c3chainB) :=
  ⟨by decide, by decide,
   build_main_cmd_args_fixed_order.2.2 emptyGitOpts c3chainA c3chainB
     (by decide) (by decide)⟩

/-! ## C8: ls-tree abbrev range validation -/

/-- C8: for every integer `abbrev` supplied to ls-tree validation,
validation succeeds when `0 <= abbrev <= 40` and raises the typed error
with the `ERR_INVALID_USAGE` discriminant when `abbrev` lies outside that
closed interval. -/
theorem ls_tree_abbrev_range (tree_ish : String) (opts : GitLsTreeOpts) (a : Int)
    (ha : opts.abbrev_ = Option.some a) :
    ((0 ≤ a ∧ a ≤ 40) → validate_ls_tree_args tree_ish opts = Except.ok ()) ∧
    ((a < 0 ∨ 40 < a) → validate_ls_tree_args tree_ish opts =
       Except.error ⟨"abbrev must be between 0 and 40.", ErrCode.invalidUsage⟩) := by
  refine ⟨fun h => ?_, fun h => ?_⟩
  · simp [validate_ls_tree_args, ha, h.1, h.2]
  · have hcond : ¬ (0 ≤ a ∧ a ≤ 40) := by omega
    simp [validate_ls_tree_args, ha, hcond]

/-- Witness for C8 at the boundary values: 0 and 40 validate, -1 and 41
raise the invalid-usage error. -/
theorem ls_tree_abbrev_range_witness :
    validate_ls_tree_args "HEAD" (abbrevOpts 0) = Except.ok () ∧
    validate_ls_tree_args "HEAD" (abbrevOpts 40) = Except.ok () ∧
    validate_ls_tree_args "HEAD" (abbrevOpts (-1)) =
      Except.error ⟨"abbrev must be between 0 and 40.", ErrCode.invalidUsage⟩ ∧
    validate_ls_tree_args "HEAD" (abbrevOpts 41) =
      Except.error ⟨"abbrev must be between 0 and 40.", ErrCode.invalidUsage⟩ :=
  ⟨(ls_tree_abbrev_range "HEAD" (abbrevOpts 0) 0 rfl).1 (by decide),
   (ls_tree_abbrev_range "HEAD" (abbrevOpts 40) 40 rfl).1 (by decide),
   (ls_tree_abbrev_range "HEAD" (abbrevOpts (-1)) (-1) rfl).2 (by decide),
   (ls_tree_abbrev_range "HEAD" (abbrevOpts 41) 41 rfl).2 (by decide)⟩

/-! ## C9: add argument exclusivity -/

/-- C9: in `validate_add_args` (utils.py) and in `AddCommandImpl.add`
(impl/simple.py), supplying a direct pathspec together with
`pathspec_from_file`, supplying `pathspec_from_file='-'` without stdin
content, or supplying stdin content when `pathspec_from_file` is not `'-'`
each raises the typed error with the `ERR_INVALID_USAGE` discriminant; for
`AddCommandImpl.add` the outcome is the raised validation error itself, so
no argument vector is built and the runner is never called. -/
theorem add_validation_exclusivity (ps : Option String) (pss : List String)
    (ff : Option FromFile) (stdin : Option String) (fnul : Bool) (ao : GitAddOpts)
    (psl : Option (List String)) (o : GitOpts) :
    ((ps.isSome = true ∨ pss ≠ []) → ff.isSome = true →
       errCodeOf (validate_add_args ps pss ff stdin fnul ao) =
         Option.some ErrCode.invalidUsage) ∧
    (ff = Option.some FromFile.dash → stdin = Option.none →
       errCodeOf (validate_add_args ps pss ff stdin fnul ao) =
         Option.some ErrCode.invalidUsage) ∧
    (stdin.isSome = true → ff ≠ Option.some FromFile.dash →
       errCodeOf (validate_add_args ps pss ff stdin fnul ao) =
         Option.some ErrCode.invalidUsage) ∧
    (psl.isSome = true → ff.isSome = true →
       raisedErrCode (addImpl o psl ff stdin fnul ao) =
         Option.some ErrCode.invalidUsage) ∧
    (ff = Option.some FromFile.dash → stdin = Option.none →
       raisedErrCode (addImpl o psl ff stdin fnul ao) =
         Option.some ErrCode.invalidUsage) ∧
    (stdin.isSome = true → ff ≠ Option.some FromFile.dash →
       raisedErrCode (addImpl o psl ff stdin fnul ao) =
         Option.some ErrCode.invalidUsage) := by
  refine ⟨fun h1 h2 => ?_, fun h1 h2 => ?_, fun h1 h2 => ?_,
          fun h1 h2 => ?_, fun h1 h2 => ?_, fun h1 h2 => ?_⟩
  · simp [validate_add_args, addDirectPathspecChecks, h1, h2, errCodeOf,
      Bind.bind, Except.bind]
  · by_cases hps : (ps.isSome = true ∨ pss ≠ []) <;>
      simp [validate_add_args, addDirectPathspecChecks, addStdinChecks,
        hps, h1, h2, errCodeOf, Bind.bind, Except.bind]
  · by_cases hps : (ps.isSome = true ∨ pss ≠ []) <;>
      by_cases hff : ff.isSome = true <;>
      simp [validate_add_args, addDirectPathspecChecks, addStdinChecks,
        hps, hff, h1, h2, errCodeOf, Bind.bind, Except.bind]
  · simp [addImpl, h1, h2, raisedErrCode]
  · by_cases hp : psl.isSome = true <;>
      simp [addImpl, hp, h1, h2, raisedErrCode]
  · by_cases hp : psl.isSome = true <;> by_cases hff : ff.isSome = true <;>
      simp [addImpl, hp, hff, h1, h2, raisedErrCode]

/-- Witness for C9: each of the six exclusivity violations at a concrete
input. -/
theorem add_validation_exclusivity_witness :
    errCodeOf (validate_add_args (Option.some "README.md") []
        (Option.some (FromFile.path "foo")) Option.none false {}) =
      Option.some ErrCode.invalidUsage ∧
    errCodeOf (validate_add_args Option.none [] (Option.some FromFile.dash)
        Option.none false {}) = Option.some ErrCode.invalidUsage ∧
    errCodeOf (validate_add_args Option.none [] Option.none
        (Option.some "README.md") false {}) = Option.some ErrCode.invalidUsage ∧
    raisedErrCode (addImpl emptyGitOpts (Option.some ["a.txt"])
        (Option.some (FromFile.path "x.txt")) Option.none false {}) =
      Option.some ErrCode.invalidUsage ∧
    raisedErrCode (addImpl emptyGitOpts Option.none (Option.some FromFile.dash)
        Option.none false {}) = Option.some ErrCode.invalidUsage ∧
    raisedErrCode (addImpl emptyGitOpts Option.none Option.none
        (Option.some "README.md") false {}) = Option.some ErrCode.invalidUsage :=
  ⟨(add_validation_exclusivity (Option.some "README.md") []
      (Option.some (FromFile.path "foo")) Option.none false {} Option.none
      emptyGitOpts).1 (by decide) (by decide),
   (add_validation_exclusivity Option.none [] (Option.some FromFile.dash)
      Option.none false {} Option.none emptyGitOpts).2.1 (by decide) (by decide),
   (add_validation_exclusivity Option.none [] Option.none
      (Option.some "README.md") false {} Option.none emptyGitOpts).2.2.1
      (by decide) (by decide),
   (add_validation_exclusivity Option.none [] (Option.some (FromFile.path "x.txt"))
      Option.none false {} (Option.some ["a.txt"]) emptyGitOpts).2.2.2.1
      (by decide) (by decide),
   (add_validation_exclusivity Option.none [] (Option.some FromFile.dash)
      Option.none false {} Option.none emptyGitOpts).2.2.2.2.1 (by decide) (by decide),
   (add_validation_exclusivity Option.none [] Option.none
      (Option.some "README.md") false {} Option.none emptyGitOpts).2.2.2.2.2
      (by decide) (by decide)⟩

/-! ## C10: the missing `compute_main_cmd_args` attribute -/

/-- C10: `compute_main_cmd_args` is not among the attributes a
`SimpleGitCommand` resolves — the class only defines
`build_main_cmd_args` — so every `version`, `ls_tree` and `add` invocation
that passes validation ends in the host-level attribute-lookup error
before the external runner is ever called. -/
theorem compute_main_cmd_args_missing (o : GitOpts) (bo : Bool)
    (t : String) (lopts : GitLsTreeOpts)
    (psl : Option (List String)) (ff : Option FromFile) (stdin : Option String)
    (fnul : Bool) (ao : GitAddOpts)
    (hls : validate_ls_tree_args t lopts = Except.ok ())
    (h1 : ¬ (psl.isSome = true ∧ ff.isSome = true))
    (h2 : ¬ (psl.isSome = true ∧ stdin.isSome = true))
    (h3 : ¬ (ff = Option.some FromFile.dash ∧ stdin = Option.none))
    (h4 : ¬ (ff ≠ Option.some FromFile.dash ∧ stdin.isSome = true)) :
    "compute_main_cmd_args" ∉ gitCommandAttrNames ∧
    "build_main_cmd_args" ∈ gitCommandAttrNames ∧
    versionImpl o bo = ExecOutcome.raisedAttrError "compute_main_cmd_args" ∧
    lsTreeImpl o t lopts = ExecOutcome.raisedAttrError "compute_main_cmd_args" ∧
    addImpl o psl ff stdin fnul ao =
      ExecOutcome.raisedAttrError "compute_main_cmd_args" := by
  have hmem : "compute_main_cmd_args" ∉ gitCommandAttrNames := by decide
  refine ⟨hmem, by decide, ?_, ?_, ?_⟩
  · simp [versionImpl, hmem]
  · simp [lsTreeImpl, hls, hmem]
  · simp [addImpl, h1, h2, h3, h4, hmem]

/-- Witness for C10: concrete valid invocations of all three subcommands
end in the attribute-lookup error. -/
theorem compute_main_cmd_args_missing_witness :
    validate_ls_tree_args "HEAD" {} = Except.ok () ∧
    versionImpl emptyGitOpts false = ExecOutcome.raisedAttrError "compute_main_cmd_args" ∧
    lsTreeImpl emptyGitOpts "HEAD" {} =
      ExecOutcome.raisedAttrError "compute_main_cmd_args" ∧
    addImpl emptyGitOpts (Option.some ["."]) Option.none Option.none false {} =
      ExecOutcome.raisedAttrError "compute_main_cmd_args" :=
  ⟨rfl,
   (compute_main_cmd_args_missing emptyGitOpts false "HEAD" {} (Option.some ["."])
      Option.none Option.none false {} rfl (by decide) (by decide) (by decide)
      (by decide)).2.2.1,
   (compute_main_cmd_args_missing emptyGitOpts false "HEAD" {} (Option.some ["."])
      Option.none Option.none false {} rfl (by decide) (by decide) (by decide)
      (by decide)).2.2.2.1,
   (compute_main_cmd_args_missing emptyGitOpts false "HEAD" {} (Option.some ["."])
      Option.none Option.none false {} rfl (by decide) (by decide) (by decide)
      (by decide)).2.2.2.2⟩

/-! ## Store lemmas for the override operations -/

theorem gitOptsOverride_store (s : Store) (gid : Nat) (ov : GitOpts) :
    (gitOptsOverride s gid ov).1.gits =
      (s.gits ++ [{ s.git gid with opts := emptyGitOpts }]).set s.gits.length
        { s.git gid with opts := merge_git_opts ov (s.git gid).opts } ∧
    (gitOptsOverride s gid ov).1.facades = s.facades ∧
    (gitOptsOverride s gid ov).2 = s.gits.length := by
  refine ⟨?_, rfl, rfl⟩
  simp [gitOptsOverride, cloneGit, setGitOpts, Store.git, getD_append_len]

theorem override_git_at_new (s : Store) (gid : Nat) (ov : GitOpts) :
    (gitOptsOverride s gid ov).1.git s.gits.length =
      { s.git gid with opts := merge_git_opts ov (s.git gid).opts } := by
  have h := (gitOptsOverride_store s gid ov).1
  have hlen : s.gits.length <
      (s.gits ++ [{ s.git gid with opts := emptyGitOpts }]).length := by simp
  simp [Store.git, h, getD_set_self _ _ _ _ hlen]

theorem override_git_preserved (s : Store) (gid : Nat) (ov : GitOpts) (u : Nat)
    (hu : u < s.gits.length) :
    (gitOptsOverride s gid ov).1.git u = s.git u := by
  have h := (gitOptsOverride_store s gid ov).1
  rw [Store.git, h, getD_set_ne _ _ _ _ _ (Nat.ne_of_lt hu).symm,
    getD_append_lt _ _ _ _ hu]
  rfl

/-! ## C4: facades reachable from an overridden Command -/

/-- Counterexample to C4: after `g' = g.git_opts_override(paginate=True)`
on a fresh `SimpleGitCommand` (Command id 0, ls-tree facade id 1), the
ls-tree facade reachable from `g'` (id 1, unchanged by the clone) still
references `g` (id 0), so its call-time read of `paginate` is `Absent`
while `g'`'s merged option set holds `Explicit(True)` — the facade does
not read the merged set. -/
theorem override_leaves_facades_stale :
    (gitOptsOverride initStore 0 ovPag).2 = 1 ∧
    ((gitOptsOverride initStore 0 ovPag).1.git 1).lsTreeSub = 1 ∧
    ((gitOptsOverride initStore 0 ovPag).1.facade 1).underlying_git = 0 ∧
    readMainOptsViaFacade (gitOptsOverride initStore 0 ovPag).1 1 GitOptKey.paginate
      = OptVal.none ∧
    ((gitOptsOverride initStore 0 ovPag).1.git 1).opts GitOptKey.paginate
      = OptVal.val (GVal.boolean true) := by
  decide

/-- C4 as the code has it: the subcommand facades reachable from
`g' = g.git_opts_override(o)` are the very facade objects of `g`, all left
unchanged by the override, so the Main OptionSet they read at call time is
whatever they read before — `g`'s pre-override resolved set, not the
merged set, which only `g'` itself stores. -/
theorem override_keeps_facade_backrefs (s : Store) (gid : Nat) (ov : GitOpts)
    (_h : gid < s.gits.length) :
    ((gitOptsOverride s gid ov).1.git (gitOptsOverride s gid ov).2).versionSub
      = (s.git gid).versionSub ∧
    ((gitOptsOverride s gid ov).1.git (gitOptsOverride s gid ov).2).lsTreeSub
      = (s.git gid).lsTreeSub ∧
    ((gitOptsOverride s gid ov).1.git (gitOptsOverride s gid ov).2).addSub
      = (s.git gid).addSub ∧
    ((gitOptsOverride s gid ov).1.git (gitOptsOverride s gid ov).2).opts
      = merge_git_opts ov (s.git gid).opts ∧
    (gitOptsOverride s gid ov).1.facades = s.facades ∧
    (∀ fid, (s.facade fid).underlying_git < s.gits.length →
       readMainOptsViaFacade (gitOptsOverride s gid ov).1 fid =
         readMainOptsViaFacade s fid) := by
  have hid : (gitOptsOverride s gid ov).2 = s.gits.length :=
    (gitOptsOverride_store s gid ov).2.2
  rw [hid]
  refine ⟨?_, ?_, ?_, ?_, (gitOptsOverride_store s gid ov).2.1, ?_⟩
  · rw [override_git_at_new]
  · rw [override_git_at_new]
  · rw [override_git_at_new]
  · rw [override_git_at_new]
  · intro fid hu
    show ((gitOptsOverride s gid ov).1.git
        ((gitOptsOverride s gid ov).1.facade fid).underlying_git).opts =
      (s.git (s.facade fid).underlying_git).opts
    have hfac : (gitOptsOverride s gid ov).1.facade fid = s.facade fid := by
      rw [Store.facade, Store.facade, (gitOptsOverride_store s gid ov).2.1]
    rw [hfac, override_git_preserved s gid ov _ hu]

/-- Witness for C4's amended statement on the fresh `SimpleGitCommand`. -/
theorem override_keeps_facade_backrefs_witness :
    0 < initStore.gits.length ∧
    ((gitOptsOverride initStore 0 ovPag).1.git
        (gitOptsOverride initStore 0 ovPag).2).lsTreeSub = (initStore.git 0).lsTreeSub ∧
    (gitOptsOverride initStore 0 ovPag).1.facades = initStore.facades ∧
    ((initStore.facade 1).underlying_git < initStore.gits.length →
       readMainOptsViaFacade (gitOptsOverride initStore 0 ovPag).1 1 =
         readMainOptsViaFacade initStore 1) :=
  ⟨by decide,
   (override_keeps_facade_backrefs initStore 0 ovPag (by decide)).2.1,
   (override_keeps_facade_backrefs initStore 0 ovPag (by decide)).2.2.2.2.1,
   fun hu => (override_keeps_facade_backrefs initStore 0 ovPag
      (by decide)).2.2.2.2.2 1 hu⟩

/-! ## C5: override immutability -/

/-- Counterexample to C5: on a fresh `SimpleGitCommand`, the facade-level
`git_opts_override` (`GitSubcmdCommand.git_opts_override`) returns the
receiver itself (facade id 0) and changes the receiver's stored Command
reference from object 0 to the freshly allocated object 1 — the receiver
is mutated, and the returned object is the receiver. -/
theorem facade_override_mutates_receiver :
    (facadeGitOptsOverride initStore 0 ovPag).2 = 0 ∧
    (initStore.facade 0).underlying_git = 0 ∧
    ((facadeGitOptsOverride initStore 0 ovPag).1.facade 0).underlying_git = 1 := by
  decide

/-- C5 as the code has it: `GitCommand.git_opts_override` allocates a new
Command object (distinct from the receiver) carrying the merged option set
and leaves the receiver's stored option set unchanged, while the facade's
`git_opts_override` re-points the receiver's stored Command reference at
the freshly allocated overridden Command and returns the receiver itself
(the previously referenced Command object is itself left unchanged). -/
theorem override_returns_fresh_but_facade_mutates (s : Store) (gid fid : Nat)
    (ov : GitOpts) (hg : gid < s.gits.length) (hf : fid < s.facades.length)
    (hu : (s.facade fid).underlying_git < s.gits.length) :
    (gitOptsOverride s gid ov).2 = s.gits.length ∧
    (gitOptsOverride s gid ov).2 ≠ gid ∧
    (gitOptsOverride s gid ov).1.git gid = s.git gid ∧
    ((gitOptsOverride s gid ov).1.git (gitOptsOverride s gid ov).2).opts =
      merge_git_opts ov (s.git gid).opts ∧
    (facadeGitOptsOverride s fid ov).2 = fid ∧
    ((facadeGitOptsOverride s fid ov).1.facade fid).underlying_git = s.gits.length ∧
    (facadeGitOptsOverride s fid ov).1.git ((s.facade fid).underlying_git) =
      s.git ((s.facade fid).underlying_git) := by
  refine ⟨(gitOptsOverride_store s gid ov).2.2, ?_, ?_, ?_, rfl, ?_, ?_⟩
  · rw [(gitOptsOverride_store s gid ov).2.2]
    exact (Nat.ne_of_lt hg).symm
  · exact override_git_preserved s gid ov gid hg
  · rw [(gitOptsOverride_store s gid ov).2.2, override_git_at_new]
  · show ((((gitOptsOverride s (s.facade fid).underlying_git ov).1.facades.set fid
        ⟨(gitOptsOverride s (s.facade fid).underlying_git ov).2⟩).getD fid
          defFacade)).underlying_git = s.gits.length
    rw [(gitOptsOverride_store s (s.facade fid).underlying_git ov).2.1]
    rw [getD_set_self _ _ _ _ hf]
    exact (gitOptsOverride_store s (s.facade fid).underlying_git ov).2.2
  · show Store.git
        ⟨(gitOptsOverride s (s.facade fid).underlying_git ov).1.gits, _⟩
        ((s.facade fid).underlying_git) = s.git ((s.facade fid).underlying_git)
    rw [Store.git]
    rw [show (⟨(gitOptsOverride s (s.facade fid).underlying_git ov).1.gits, _⟩ :
          Store).gits = (gitOptsOverride s (s.facade fid).underlying_git ov).1.gits
        from rfl]
    exact override_git_preserved s _ ov _ hu

/-- Witness for C5's amended statement on the fresh `SimpleGitCommand`. -/
theorem override_returns_fresh_but_facade_mutates_witness :
    (0 < initStore.gits.length ∧ 0 < initStore.facades.length ∧
      (initStore.facade 0).underlying_git < initStore.gits.length) ∧
    (gitOptsOverride initStore 0 ovPag).2 ≠ 0 ∧
    (gitOptsOverride initStore 0 ovPag).1.git 0 = initStore.git 0 ∧
    (facadeGitOptsOverride initStore 0 ovPag).2 = 0 ∧
    ((facadeGitOptsOverride initStore 0 ovPag).1.facade 0).underlying_git =
      initStore.gits.length :=
  ⟨⟨by decide, by decide, by decide⟩,
   (override_returns_fresh_but_facade_mutates initStore 0 0 ovPag (by decide)
      (by decide) (by decide)).2.1,
   (override_returns_fresh_but_facade_mutates initStore 0 0 ovPag (by decide)
      (by decide) (by decide)).2.2.1,
   (override_returns_fresh_but_facade_mutates initStore 0 0 ovPag (by decide)
      (by decide) (by decide)).2.2.2.2.1,
   (override_returns_fresh_but_facade_mutates initStore 0 0 ovPag (by decide)
      (by decide) (by decide)).2.2.2.2.2.1⟩

end Gitbolt
